import Mathlib

/-!
Shallow embedding of the seating-chart renderer of `make-site.py`.

The Python function `draw_svg(reserved)` builds a fixed 16-row seat grid,
then serializes it as an SVG string; `build_site` feeds it the reservation
identifiers parsed from an event record.  Cells are modelled as in the
source: an `Int` that is `0` for an empty/aisle cell, `-1` for the
row-label marker, and a positive seat number otherwise.  Python prints the
whole-valued float coordinates (`size * (i + 1.5)` etc.) with a trailing
`.0`; `pyFloat` reproduces that formatting on the underlying integer value.
-/

namespace MakeSite

/-- Python formatting of a whole-valued float such as `60.0`: every
coordinate in the source is `40 * (something + 0.5k)`, always integral. -/
def pyFloat (n : Nat) : String := toString n ++ ".0"

/-- Source `make_args`: join attribute pairs as `key="value"`, space separated. -/
def make_args (args : List (String × String)) : String :=
  " ".intercalate (args.map (fun p => p.1 ++ "=\"" ++ p.2 ++ "\""))

/-- Source `draw_text`: a centered text element.  The `x`/`y` arguments are
pre-formatted strings because Python passes both ints and floats; `kwargs`
holds the extra attributes merged after the base dictionary. -/
def draw_text (x y : String) (sz : Nat) (text : String) (fill : String)
    (kwargs : List (String × String)) : String :=
  "<text " ++ make_args ([("x", x), ("y", y), ("dominant-baseline", "middle"),
    ("text-anchor", "middle"), ("font-family", "sans-serif"),
    ("font-size", toString sz), ("fill", fill)] ++ kwargs) ++ ">" ++ text ++ "</text>"

/-- Source `draw_rect`. -/
def draw_rect (x y w h : Int) (stroke fill : String) : String :=
  "<rect " ++ make_args [("x", toString x), ("y", toString y),
    ("width", toString w), ("height", toString h),
    ("stroke", stroke), ("fill", fill)] ++ " />"

/-- Source `draw_seat`: a translated, 1.6-scaled group holding the seat
square and the seat-number label. -/
def draw_seat (x y : String) (k : Int) (color : String) : String :=
  "\n".intercalate
    ["<g transform=\"translate(" ++ x ++ "," ++ y ++ ") scale(1.6)\">",
     "  " ++ draw_rect (-10) (-10) 20 20 "black" color,
     "  " ++ draw_text "0" "0" 9 (toString k) "black" [("dy", ".1em")],
     "</g>"]

/-- Source `ls`: `[i * 2 + 1 for i in reversed(range(12))]`. -/
def ls : List Int := ((List.range 12).reverse).map (fun i => (i : Int) * 2 + 1)

/-- Source `rs`: `[i * 2 + 2 for i in range(12)]`. -/
def rs : List Int := (List.range 12).map (fun i => (i : Int) * 2 + 2)

/-- Source `cols`: `ls[:6] + [0, -1, 0] + ls[6:] + rs[:6] + [0, -1, 0] + rs[6:]`. -/
def cols : List Int :=
  ls.take 6 ++ [0, -1, 0] ++ ls.drop 6 ++ rs.take 6 ++ [0, -1, 0] ++ rs.drop 6

/-- Source `rows`: the row labels, letter I skipped. -/
def rows : String := "ABCDEFGHJKLMNOPQ"

/-- Python slice `l[a:b]` with possibly negative bounds, as used on `cols`. -/
def pySlice (l : List Int) (a b : Int) : List Int :=
  let n : Int := l.length
  let start : Int := if a < 0 then n + a else a
  let stop : Int := if b < 0 then n + b else b
  (l.take stop.toNat).drop start.toNat

/-- Source `seats`: the 16 rows, assembled exactly as in `draw_svg`
(lines 99-104: two full rows, eight rows padded 2/2, one row padded 2/4,
four rows padded 6/6, and the split back row). -/
def seats : List (List Int) :=
  List.replicate 2 cols
    ++ List.replicate 8
        (List.replicate 2 0 ++ pySlice cols 2 (-2) ++ List.replicate 2 0)
    ++ [List.replicate 2 0 ++ pySlice cols 2 (-4) ++ List.replicate 4 0]
    ++ List.replicate 4
        (List.replicate 6 0 ++ pySlice cols 6 (-6) ++ List.replicate 6 0)
    ++ [List.replicate 6 0 ++ pySlice cols 6 13 ++ List.replicate 4 0
        ++ pySlice cols (-13) (-6) ++ List.replicate 6 0]

/-- The row letter `rows[j]` for a grid row index. -/
def rowChar (j : Nat) : Char := rows.toList.getD j ' '

/-- Fill-color selection for a seat cell, exactly the sequence of
assignments at lines 130-135 of the source: start from "none", switch to
"yellow" when the number exceeds 20, then override with the reserved color
when the identifier is in the reservation list. -/
def seatColor (reserved : List String) (rowLabel : Char) (k : Int) : String :=
  let color := "none"
  let color := if k > 20 then "yellow" else color
  let seat := String.singleton rowLabel ++ toString k
  let color := if seat ∈ reserved then "#ffcccb" else color
  color

/-- Contribution of one grid cell to the SVG line list (the body of the
nested loop at lines 121-136): empty cells emit nothing, the `-1` marker
emits the row letter, a seat emits one seat group. -/
def cellSvg (reserved : List String) (j i : Nat) (k : Int) : List String :=
  if k = 0 then []
  else
    let x := pyFloat (40 * i + 60)
    let y := pyFloat (40 * j + 140)
    if k < 0 then
      [draw_text x y 20 (String.singleton (rowChar j)) "black" []]
    else
      [draw_seat x y k (seatColor reserved (rowChar j) k)]

/-- All cell contributions, in loop order. -/
def seatCellLines (reserved : List String) : List String :=
  (seats.enum.map (fun p =>
    (p.2.enum.map (fun q => cellSvg reserved p.1 q.1 q.2)).flatten)).flatten

/-- Source `size`. -/
def size : Nat := 40

/-- Source `w = size * len(cols) + 2 * size`. -/
def svgW : Nat := size * cols.length + 2 * size

/-- Source `h = size * len(rows) + 6 * size`. -/
def svgH : Nat := size * rows.length + 6 * size

/-- Source `stage = size * 2`. -/
def stageH : Nat := size * 2

/-- Source `draw_svg`: the full document, root element, stage and
production bands, every cell, closing tag, joined by newlines. -/
def draw_svg (reserved : List String) : String :=
  "\n".intercalate
    (["<svg xmlns=\"http://www.w3.org/2000/svg\" width=\"" ++ toString svgW
        ++ "\" height=\"" ++ toString svgH ++ "\">",
      draw_rect 0 0 (svgW : Int) (stageH : Int) "none" "#8bc34a",
      draw_text (pyFloat (svgW / 2)) (pyFloat (stageH / 2 + 5)) 24 "Scène" "white" [],
      draw_rect 0 ((svgH - stageH : Nat) : Int) (svgW : Int) (stageH : Int) "none" "#8bc34a",
      draw_text (pyFloat (svgW / 2)) (pyFloat (svgH - stageH / 2 + 5)) 24 "Régie" "white" []]
     ++ seatCellLines reserved ++ ["</svg>"])

/-- Identifiers of every real seat of the layout, `rows[j] + str(k)`. -/
def allSeatIds : List String :=
  (seats.enum.map (fun p =>
    p.2.filterMap (fun k =>
      if 0 < k then some (String.singleton (rowChar p.1) ++ toString k) else none))).flatten

/-- Python `line.startswith("#")` for the one-character literal: true
exactly when the first character is `#`. -/
def startsWithHash (l : String) : Bool :=
  match l.data with
  | [] => false
  | c :: _ => c == '#'

/-- The non-comment lines of an event record (line 208 of the source). -/
def nonComment (raw : List String) : List String :=
  raw.filter (fun l => !startsWithHash l)

/-- The reservation identifiers of an event record: lines after the third
non-comment line, stripped, blanks dropped (lines 206-212 of the source). -/
def reservedOf (raw : List String) : List String :=
  ((nonComment raw).drop 3).filterMap (fun l => if l.trim = "" then none else some l.trim)

/-- One iteration of the per-event loop of `build_site` (lines 205-215):
the SVG file write that happens unconditionally, and the header unpacking
`what, where, when = lines[:3]`, which raises when fewer than three
non-comment lines exist.  Returns the emitted (path, content) writes and
the unpacking outcome. -/
def processRecord (stem : String) (raw : List String) :
    List (String × String) × Except String (String × String × String) :=
  ([("static/" ++ stem ++ ".svg", draw_svg (reservedOf raw))],
   match nonComment raw with
   | a :: b :: c :: _ => Except.ok (a, b, c)
   | _ => Except.error "ValueError: not enough values to unpack")

/-- Grid cells carrying a premium seat number (above 20), with row index. -/
def premiumSeats : List (Nat × Int) :=
  (seats.enum.map (fun p =>
    p.2.filterMap (fun k => if 20 < k then some (p.1, k) else none))).flatten

/-- Grid cells whose rendered glyph gets the premium color under the empty
reservation set, with row and column indices. -/
def premiumRendered : List (Nat × Nat × Int) :=
  (seats.enum.map (fun p =>
    p.2.enum.filterMap (fun q =>
      if 0 < q.2 ∧ seatColor [] (rowChar p.1) q.2 = "yellow"
      then some (p.1, q.1, q.2) else none))).flatten

/-- A cell whose value is not a positive seat number never consults the
reservation list, so its contribution is the same for any two lists. -/
theorem cellSvg_nonpos (r1 r2 : List String) (j i : Nat) (k : Int) (hk : k ≤ 0) :
    cellSvg r1 j i k = cellSvg r2 j i k := by
  by_cases h0 : k = 0
  · simp [cellSvg, h0]
  · have hneg : k < 0 := lt_of_le_of_ne hk h0
    simp [cellSvg, h0, hneg]

/-- A seat cell's contribution depends on the reservation list only through
membership of the seat's identifier. -/
theorem cellSvg_mem_iff (r1 r2 : List String) (j i : Nat) (k : Int)
    (h : (String.singleton (rowChar j) ++ toString k ∈ r1) ↔
      (String.singleton (rowChar j) ++ toString k ∈ r2)) :
    cellSvg r1 j i k = cellSvg r2 j i k := by
  by_cases h0 : k = 0
  · simp [cellSvg, h0]
  · by_cases hneg : k < 0
    · simp [cellSvg, h0, hneg]
    · simp only [cellSvg, h0, hneg, if_false, seatColor]
      congr 2
      exact if_congr h rfl rfl

/-- Congruence for the full cell-line list: pointwise equal cell
contributions over the grid give equal line lists. -/
theorem seatCellLines_congr (r1 r2 : List String)
    (h : ∀ j row, (j, row) ∈ seats.enum → ∀ i k, (i, k) ∈ row.enum →
      cellSvg r1 j i k = cellSvg r2 j i k) :
    seatCellLines r1 = seatCellLines r2 := by
  unfold seatCellLines
  refine congrArg List.flatten (List.map_congr_left ?_)
  intro p hp
  obtain ⟨j, row⟩ := p
  refine congrArg List.flatten (List.map_congr_left ?_)
  intro q hq
  obtain ⟨i, k⟩ := q
  exact h j row hp i k hq

/-- Congruence lifted to the whole document. -/
theorem draw_svg_congr (r1 r2 : List String)
    (h : seatCellLines r1 = seatCellLines r2) : draw_svg r1 = draw_svg r2 := by
  unfold draw_svg
  rw [h]

/-- Every positive cell of the grid contributes its identifier to
`allSeatIds`. -/
theorem mem_allSeatIds (j : Nat) (row : List Int) (i : Nat) (k : Int)
    (hrow : (j, row) ∈ seats.enum) (hik : (i, k) ∈ row.enum) (hk : 0 < k) :
    String.singleton (rowChar j) ++ toString k ∈ allSeatIds := by
  unfold allSeatIds
  rw [List.mem_flatten]
  refine ⟨_, List.mem_map_of_mem _ hrow, ?_⟩
  rw [List.mem_filterMap]
  have hkrow : k ∈ row := by
    have := List.mem_enum_iff_getElem?.mp hik
    exact List.getElem?_mem this
  exact ⟨k, hkrow, by simp [hk]⟩

/-- C1: a seat cell SeatNumber(n) in row r renders as one seat glyph whose
fill is chosen in priority order: reserved identifier r+n gives "#ffcccb"
(even when n > 20); otherwise n > 20 gives "yellow"; otherwise "none". -/
theorem seat_fill_priority (reserved : List String) (j i : Nat) (k : Int)
    (hk : 0 < k) :
    cellSvg reserved j i k =
      [draw_seat (pyFloat (40 * i + 60)) (pyFloat (40 * j + 140)) k
        (if String.singleton (rowChar j) ++ toString k ∈ reserved then "#ffcccb"
         else if k > 20 then "yellow" else "none")] := by
  have h0 : ¬ k = 0 := by omega
  have hneg : ¬ k < 0 := by omega
  simp [cellSvg, h0, hneg, seatColor]

/-- Witness for C1 at row A (j = 0), column 1, seat 21, reserved. -/
theorem seat_fill_priority_witness :
    cellSvg ["A21"] 0 1 21 =
      [draw_seat (pyFloat (40 * 1 + 60)) (pyFloat (40 * 0 + 140)) 21
        (if String.singleton (rowChar 0) ++ toString (21 : Int) ∈ ["A21"] then "#ffcccb"
         else if (21 : Int) > 20 then "yellow" else "none")] :=
  seat_fill_priority ["A21"] 0 1 21 (by decide)

/-- C2: a reservation list whose identifiers match no seat of the layout
renders byte-identically to the empty reservation list. -/
theorem unrecognized_reservations_ignored (reserved : List String)
    (h : ∀ s ∈ reserved, s ∉ allSeatIds) :
    draw_svg reserved = draw_svg [] := by
  apply draw_svg_congr
  apply seatCellLines_congr
  intro j row hrow i k hik
  by_cases hk : 0 < k
  · apply cellSvg_mem_iff
    have hid := mem_allSeatIds j row i k hrow hik hk
    constructor
    · intro hmem
      exact absurd hid (h _ hmem)
    · intro hmem
      exact absurd hmem (List.not_mem_nil _)
  · exact cellSvg_nonpos _ _ _ _ _ (by omega)

/-- Witness for C2 with the reservation list ["Z99"]. -/
theorem unrecognized_reservations_ignored_witness :
    draw_svg ["Z99"] = draw_svg [] :=
  unrecognized_reservations_ignored ["Z99"] (by decide)

/-- C3: rendering is deterministic — the same reservation set always gives
the byte-identical document; the embedding is a pure function of the
reservation list alone, with no time, randomness or environment input. -/
theorem render_deterministic (r1 r2 : List String) (h : r1 = r2) :
    draw_svg r1 = draw_svg r2 :=
  congrArg draw_svg h

/-- Witness for C3 at the list ["A1"]. -/
theorem render_deterministic_witness : draw_svg ["A1"] = draw_svg ["A1"] :=
  render_deterministic ["A1"] ["A1"] rfl

/-- C4: the layout generator always succeeds: there are exactly 16 rows,
one per label in "ABCDEFGHJKLMNOPQ", and every row has the same cell count
as the 30-cell canonical pattern, so both construction assertions hold. -/
theorem layout_assertions_hold :
    rows = "ABCDEFGHJKLMNOPQ" ∧ seats.length = rows.length ∧
      seats.length = 16 ∧ cols.length = 30 ∧
      (seats.all (fun row => row.length == cols.length)) = true := by
  decide

/-- C5: the canonical pattern is first 6 of the descending odd sequence
23,...,1, a 3-cell gap (0, -1, 0), its remaining 6, first 6 of the
ascending even sequence 2,...,24, another 3-cell gap, its remaining 6. -/
theorem canonical_pattern :
    ls = [23, 21, 19, 17, 15, 13, 11, 9, 7, 5, 3, 1] ∧
      rs = [2, 4, 6, 8, 10, 12, 14, 16, 18, 20, 22, 24] ∧
      cols = ls.take 6 ++ [0, -1, 0] ++ ls.drop 6
        ++ rs.take 6 ++ [0, -1, 0] ++ rs.drop 6 := by
  decide

/-- C6: grid rows 3 through 10 (indices 2-9) are 2 empty pad cells, the
full interior of the canonical pattern (all cells but the outer 2 on each
side, Python `cols[2:-2]`), and 2 empty pad cells. -/
theorem middle_rows_padded (j : Nat) (h2 : 2 ≤ j) (h9 : j ≤ 9) :
    seats.getD j [] =
      List.replicate 2 (0 : Int) ++ (cols.drop 2).take (cols.length - 4)
        ++ List.replicate 2 (0 : Int) := by
  interval_cases j <;> decide

/-- Witness for C6 at row index 5. -/
theorem middle_rows_padded_witness :
    seats.getD 5 [] =
      List.replicate 2 (0 : Int) ++ (cols.drop 2).take (cols.length - 4)
        ++ List.replicate 2 (0 : Int) :=
  middle_rows_padded 5 (by decide) (by decide)

/-- C7: the last grid row (index 15) is 6 empty pads, pattern cells
[6:13], a 4-cell empty center gap, pattern cells [-13:-6] (indices 17-23),
and 6 empty pads, and its width equals every other row's width. -/
theorem back_row_structure :
    seats.getD 15 [] =
      List.replicate 6 (0 : Int) ++ (cols.drop 6).take 7
        ++ List.replicate 4 (0 : Int) ++ (cols.drop 17).take 7
        ++ List.replicate 6 (0 : Int) ∧
      (seats.all (fun row => row.length == (seats.getD 15 []).length)) = true := by
  decide

/-- C8: the document depends on the reservation input only through set
membership — inputs holding the same identifiers, in any order and with
any duplication, render byte-identically. -/
theorem render_set_semantics (r1 r2 : List String)
    (h : ∀ s, s ∈ r1 ↔ s ∈ r2) :
    draw_svg r1 = draw_svg r2 := by
  apply draw_svg_congr
  apply seatCellLines_congr
  intro j row _ i k _
  exact cellSvg_mem_iff r1 r2 j i k (h _)

/-- Witness for C8: a duplicated, reordered list against its set. -/
theorem render_set_semantics_witness :
    draw_svg ["A1", "A1", "B2"] = draw_svg ["B2", "A1"] :=
  render_set_semantics ["A1", "A1", "B2"] ["B2", "A1"]
    (by intro s; simp; tauto)

/-- C9: an event record with fewer than 3 non-comment lines makes the
header unpacking fail with a structural error, and the only output the
record processing ever emits is the single complete rendered document. -/
theorem record_missing_header (stem : String) (raw : List String)
    (h : (nonComment raw).length < 3) :
    (∃ msg, (processRecord stem raw).2 = Except.error msg) ∧
      (processRecord stem raw).1 =
        [("static/" ++ stem ++ ".svg", draw_svg (reservedOf raw))] := by
  refine ⟨⟨"ValueError: not enough values to unpack", ?_⟩, rfl⟩
  unfold processRecord
  cases hl : nonComment raw with
  | nil => rfl
  | cons a t =>
    cases t with
    | nil => rfl
    | cons b t2 =>
      cases t2 with
      | nil => rfl
      | cons c t3 =>
        rw [hl] at h
        simp at h
        omega

/-- Witness for C9 on a record holding one comment and one seat line. -/
theorem record_missing_header_witness :
    (∃ msg, (processRecord "x" ["# c", "A1"]).2 = Except.error msg) ∧
      (processRecord "x" ["# c", "A1"]).1 =
        [("static/" ++ "x" ++ ".svg", draw_svg (reservedOf ["# c", "A1"]))] :=
  record_missing_header "x" ["# c", "A1"] (by decide)

/-- C10: seat numbers above 20 occur only in the first two rows, exactly
21, 22, 23, 24 in each, and under the empty reservation set exactly 8
cells render a glyph with the premium color. -/
theorem premium_only_front_rows :
    premiumSeats = [(0, 23), (0, 21), (0, 22), (0, 24),
      (1, 23), (1, 21), (1, 22), (1, 24)] ∧
      premiumRendered.length = 8 ∧
      premiumRendered.map (fun t => (t.1, t.2.2)) = premiumSeats := by
  decide

end MakeSite
